import Mathlib

/-!
Shallow embedding of the crawl orchestration engine in
`src/crawler/src/crawler.ts`, together with theorems settling the
specification claims about the driver loop, the resume state machine,
the overall timeout, the request-interception filter, the page load
pipeline, the scroll loop, subpage exploration, and crawl-list
validation.
-/

namespace Adscraper

/-! ## Overall timeout (crawler.ts lines 186-187, 282-284) -/

/-- crawler.ts line 187: the overall timeout in milliseconds, computed once
from the crawl list length. -/
def OVERALL_TIMEOUT (crawlListLength : Nat) : Nat :=
  crawlListLength * 15 * 60 * 1000

/-- Wall-clock start time of driver-loop iteration `i`, given each target
work duration in milliseconds: targets run one at a time, in list order
(crawler.ts line 277), so iteration `i + 1` starts when the work of target
`i` has resolved. -/
def iterStart (durations : List Nat) : Nat → Nat
  | 0 => 0
  | i + 1 => iterStart durations i + durations.getD i 0

/-- Modelled from the spec: `createAsyncTimeout` lives in
`src/crawler/src/util/timeout.ts`, which is not under `src/`; per the spec
race of per-target work against a timer, it arms a cancellable timer at its
call site that fires once the given number of milliseconds has elapsed from
that call.  crawler.ts line 283 makes that call at the start of each loop
iteration with duration `OVERALL_TIMEOUT`, and crawler.ts line 381 cancels
the timer when the target work resolves, so the deadline raced against
target `i` is the start time of iteration `i` plus `OVERALL_TIMEOUT`. -/
def timerDeadline (crawlListLength : Nat) (durations : List Nat) (i : Nat) : Nat :=
  iterStart durations i + OVERALL_TIMEOUT crawlListLength

/-- The timer raced against target `i` (crawler.ts line 284) fires iff the
work of target `i` is still unresolved at the timer deadline. -/
def timerFires (crawlListLength : Nat) (durations : List Nat) (i : Nat) : Bool :=
  decide (timerDeadline crawlListLength durations i <
    iterStart durations i + durations.getD i 0)

/-! ## Driver loop (crawler.ts lines 277-392) -/

/-- Outcome of the work raced for one target: resolved, rejected with an
error, or lost to the timer.  The driver loop catches the latter two
(crawler.ts lines 378-379 and 385-386). -/
inductive TargetOutcome
  | ok
  | err (msg : String)
  | timedOut
  deriving Repr, DecidableEq

/-- Writes issued to the `crawl` table row of this run by the driver loop:
the index update in the per-target `finally` (crawler.ts line 388) and the
completion update after the loop (crawler.ts line 392). -/
inductive CrawlWrite
  | setCurrentIndex (i : Nat)
  | setCompleted
  deriving Repr, DecidableEq

/-- The durable `crawl` row fields the driver loop mutates. -/
structure RunRecord where
  currentIndex : Nat
  completed : Bool
  deriving Repr, DecidableEq

def applyWrite (r : RunRecord) : CrawlWrite → RunRecord
  | CrawlWrite.setCurrentIndex i => { r with currentIndex := i }
  | CrawlWrite.setCompleted => { r with completed := true }

def runWrites (r : RunRecord) (ws : List CrawlWrite) : RunRecord :=
  ws.foldl applyWrite r

/-- crawler.ts lines 277-392, from index `i` with `remaining` targets left:
each iteration races the target work against the timer, catches any
rejection (crawler.ts lines 378-379 and 385-386) so the loop always
advances, and in `finally` persists `crawl_list_current_index = i + 1`
(crawler.ts line 388); after the last target the run is marked completed
(crawler.ts line 392).  Returns the attempted targets paired with their
outcomes, and the `crawl`-table writes, in program order. -/
def driverLoopAux (outcome : Nat → TargetOutcome) (i : Nat) :
    Nat → List (Nat × TargetOutcome) × List CrawlWrite
  | 0 => ([], [CrawlWrite.setCompleted])
  | remaining + 1 =>
    let rest := driverLoopAux outcome (i + 1) remaining
    ((i, outcome i) :: rest.1, CrawlWrite.setCurrentIndex (i + 1) :: rest.2)

/-- The driver loop `for (let i = start; i < len; i++)` runs exactly
`len - start` iterations. -/
def driverLoop (len : Nat) (outcome : Nat → TargetOutcome) (start : Nat) :
    List (Nat × TargetOutcome) × List CrawlWrite :=
  driverLoopAux outcome start (len - start)

theorem driverLoopAux_fst (outcome : Nat → TargetOutcome) :
    ∀ (n i : Nat), (driverLoopAux outcome i n).1 =
      (List.range' i n).map (fun k => (k, outcome k)) := by
  intro n
  induction n with
  | zero => intro i; rfl
  | succ n ih =>
    intro i
    simp [driverLoopAux, List.range'_succ, ih (i + 1)]

theorem driverLoopAux_snd (outcome : Nat → TargetOutcome) :
    ∀ (n i : Nat), (driverLoopAux outcome i n).2 =
      (List.range' (i + 1) n).map CrawlWrite.setCurrentIndex
        ++ [CrawlWrite.setCompleted] := by
  intro n
  induction n with
  | zero => intro i; rfl
  | succ n ih =>
    intro i
    simp [driverLoopAux, List.range'_succ, ih (i + 1)]

theorem runWrites_index_trace :
    ∀ (n i : Nat) (r : RunRecord),
      runWrites r ((List.range' (i + 1) n).map CrawlWrite.setCurrentIndex
          ++ [CrawlWrite.setCompleted]) =
        ⟨if n = 0 then r.currentIndex else i + n, true⟩ := by
  intro n
  induction n with
  | zero =>
    intro i r
    simp [runWrites, applyWrite]
  | succ n ih =>
    intro i r
    rw [List.range'_succ]
    simp only [List.map_cons, List.cons_append, runWrites, List.foldl_cons]
    have h := ih (i + 1) (applyWrite r (CrawlWrite.setCurrentIndex (i + 1)))
    simp only [runWrites] at h
    rw [h]
    rcases Nat.eq_zero_or_pos n with hn | hn
    · subst hn; simp [applyWrite]
    · have hne : n ≠ 0 := Nat.pos_iff_ne_zero.mp hn
      simp [hne]
      omega

/-- C1: for every target list and every assignment of per-target outcomes
(success, exception, or timeout), the driver loop attempts every remaining
target in order, persists `current_index = index + 1` after every target,
and finally marks the run completed, so the final record has
`current_index` equal to the list length and `completed = true`. -/
theorem claim1_driver_loop (len start : Nat) (outcome : Nat → TargetOutcome)
    (r : RunRecord) (hs : start ≤ len) (hr : r.currentIndex = start) :
    (driverLoop len outcome start).1 =
      (List.range' start (len - start)).map (fun k => (k, outcome k)) ∧
    (driverLoop len outcome start).2 =
      (List.range' (start + 1) (len - start)).map CrawlWrite.setCurrentIndex
        ++ [CrawlWrite.setCompleted] ∧
    (runWrites r (driverLoop len outcome start).2).currentIndex = len ∧
    (runWrites r (driverLoop len outcome start).2).completed = true := by
  refine ⟨driverLoopAux_fst outcome _ _, driverLoopAux_snd outcome _ _, ?_, ?_⟩
  · rw [driverLoop, driverLoopAux_snd outcome, runWrites_index_trace]
    rcases Nat.eq_zero_or_pos (len - start) with h | h
    · simp [h]; omega
    · have hne : len - start ≠ 0 := Nat.pos_iff_ne_zero.mp h
      simp [hne]; omega
  · rw [driverLoop, driverLoopAux_snd outcome, runWrites_index_trace]

/-- Outcomes for the C1 witness: target 1 fails, the others resolve. -/
def outcomeW : Nat → TargetOutcome :=
  fun i => if i = 1 then TargetOutcome.err "boom" else TargetOutcome.ok

theorem claim1_witness :
    (driverLoop 3 outcomeW 1).1 =
      [(1, TargetOutcome.err "boom"), (2, TargetOutcome.ok)] ∧
    (driverLoop 3 outcomeW 1).2 =
      [CrawlWrite.setCurrentIndex 2, CrawlWrite.setCurrentIndex 3,
        CrawlWrite.setCompleted] ∧
    (runWrites ⟨1, false⟩ (driverLoop 3 outcomeW 1).2).currentIndex = 3 ∧
    (runWrites ⟨1, false⟩ (driverLoop 3 outcomeW 1).2).completed = true := by
  have h := claim1_driver_loop 3 1 outcomeW ⟨1, false⟩ (by decide) rfl
  refine ⟨?_, ?_, h.2.2.1, h.2.2.2⟩
  · rw [h.1]; rfl
  · rw [h.2.1]; rfl

/-- C4 counterexample: `timerFires` is decided per target by that target own
work duration, because the timer is re-armed at the start of every loop
iteration (crawler.ts line 283).  With two targets, where the work of
target 0 exceeds the budget and the work of target 1 is instantaneous, the
timer fires for target 0 but not for the subsequent target 1, refuting the
claim that a fired timer has already elapsed for all subsequent targets. -/
theorem claim4_counterexample :
    timerFires 2 [OVERALL_TIMEOUT 2 + 1, 0] 0 = true ∧
    timerFires 2 [OVERALL_TIMEOUT 2 + 1, 0] 1 = false := by
  constructor <;> decide

/-- C4 (amended): the overall timeout duration is computed once, up front,
as `targetCount * 15` minutes, but the timer armed with it is created
afresh at the start of each target loop iteration and cancelled when that
target resolves, so it is a per-target renewable budget: it fires for a
target iff that target own work duration exceeds the shared duration value,
independently of earlier targets. -/
theorem claim4_per_target_timer (crawlListLength : Nat) (durations : List Nat)
    (i : Nat) :
    OVERALL_TIMEOUT crawlListLength = crawlListLength * 15 * 60 * 1000 ∧
    timerFires crawlListLength durations i =
      decide (OVERALL_TIMEOUT crawlListLength < durations.getD i 0) := by
  refine ⟨rfl, ?_⟩
  simp [timerFires, timerDeadline]

/-! ## Crawl-list validation and the resume state machine
(crawler.ts lines 175-257) -/

/-- A row of the `crawl` table as returned by the lookup by name
(crawler.ts line 214). -/
structure PrevCrawl where
  id : Nat
  crawl_list : String
  crawl_list_current_index : Nat
  crawl_list_length : Nat
  completed : Bool
  deriving Repr, DecidableEq

/-- Accumulates the current path component and restarts it at each
separator, yielding the final component. -/
def basenameAux : List Char → List Char → List Char
  | acc, [] => acc.reverse
  | acc, c :: rest =>
    if c = '/' then basenameAux [] rest else basenameAux (c :: acc) rest

/-- Modelled from the spec: `path.basename` of the Node `path` module, an
external facility not part of this repository: the final component of a
path. -/
def basename (p : String) : String :=
  String.mk (basenameAux [] p.data)

/-- crawler.ts lines 175-184: validate every crawl-list URL before the run
starts.  `urlValid` models the external WHATWG URL parser (the `new URL`
constructor) succeeding.  The counter `i` is initialised to 1 at
crawler.ts line 176 and, exactly as in the source, never incremented, so
it is passed through the recursion unchanged.  Returns the diagnostic of
the first invalid entry, or `none` when all entries parse. -/
def validateCrawlListAux (urlValid : String → Bool) (crawlListFile : String)
    (i : Nat) : List String → Option String
  | [] => none
  | url :: rest =>
    if urlValid url then validateCrawlListAux urlValid crawlListFile i rest
    else some ("Invalid URL in crawl list " ++ crawlListFile ++ " at line "
      ++ toString i ++ ": " ++ url)

def validateCrawlList (urlValid : String → Bool) (crawlListFile : String)
    (crawlList : List String) : Option String :=
  validateCrawlListAux urlValid crawlListFile 1 crawlList

/-- Outcome of the resume decision (crawler.ts lines 212-245). -/
inductive SmResult
  | proceed (crawlId : Nat) (startIndex : Nat) (insertedNewRun : Bool)
  | abort (diagnostic : String)
  deriving Repr, DecidableEq

/-- crawler.ts lines 212-245: decide between resuming a prior run, aborting
the process, or inserting a fresh run record.  `store` is the lookup of a
crawl row by name (the SELECT at crawler.ts line 214) and `newId` is the id
the insert of a fresh row would return. -/
def runStateMachine (store : String → Option PrevCrawl)
    (crawlName : Option String) (resumeIfAble : Bool) (crawlListFile : String)
    (crawlListLength : Nat) (newId : Nat) : SmResult :=
  match crawlName with
  | none => SmResult.proceed newId 0 true
  | some nm =>
    match store nm with
    | none => SmResult.proceed newId 0 true
    | some prev =>
      if resumeIfAble then
        if basename prev.crawl_list ≠ basename crawlListFile then
          SmResult.abort
            "Crawl list file provided does not the have same name as the original crawl"
        else if prev.crawl_list_length ≠ crawlListLength then
          SmResult.abort
            "Crawl list file provided does not the have same number of URLs as the original crawl"
        else if prev.completed then
          SmResult.abort "Crawl with the given name is already completed"
        else
          SmResult.proceed prev.id prev.crawl_list_current_index false
      else SmResult.proceed newId 0 true

/-- crawler.ts lines 191-209: the row inserted by `createCrawlEntry` (only
the fields the claims mention). -/
structure NewCrawlRow where
  name : Option String
  completed : Bool
  crawl_list : String
  crawl_list_current_index : Nat
  crawl_list_length : Nat
  deriving Repr, DecidableEq

def createCrawlEntry (crawlName : Option String) (crawlListFile : String)
    (crawlListLength : Nat) : NewCrawlRow :=
  { name := crawlName, completed := false, crawl_list := crawlListFile,
    crawl_list_current_index := 0, crawl_list_length := crawlListLength }

/-- Externally visible actions of the pre-loop phase, in program order: the
only database mutation issued before the main loop is the insert of a
fresh crawl row (crawler.ts line 192), and the browser launch is
crawler.ts line 257. -/
inductive SetupEvent
  | insertCrawl (id : Nat) (row : NewCrawlRow)
  | launchBrowser
  deriving Repr, DecidableEq

inductive SetupResult
  | abortInvalidUrl (diagnostic : String)
  | abortResume (diagnostic : String)
  | proceed (crawlId : Nat) (startIndex : Nat)
  deriving Repr, DecidableEq

/-- crawler.ts lines 175-257: URL validation, then the resume state
machine, then the browser launch.  Every abort path calls
`process.exit(1)` directly after printing its diagnostic, so it emits no
insert, no update and no launch. -/
def crawlSetup (urlValid : String → Bool) (store : String → Option PrevCrawl)
    (crawlList : List String) (crawlListFile : String)
    (crawlName : Option String) (resumeIfAble : Bool) (newId : Nat) :
    List SetupEvent × SetupResult :=
  match validateCrawlList urlValid crawlListFile crawlList with
  | some d => ([], SetupResult.abortInvalidUrl d)
  | none =>
    match runStateMachine store crawlName resumeIfAble crawlListFile
        crawlList.length newId with
    | SmResult.abort d => ([], SetupResult.abortResume d)
    | SmResult.proceed id k inserted =>
      ((if inserted then
          [SetupEvent.insertCrawl id
            (createCrawlEntry crawlName crawlListFile crawlList.length)]
        else []) ++ [SetupEvent.launchBrowser],
       SetupResult.proceed id k)

/-- C2: with a crawl name, resume enabled, and a prior non-completed run of
that name whose list basename and list length match the current inputs,
the setup returns the prior run identity and stored index `k` without
inserting a new run record, and the driver loop then begins processing at
index `k` itself. -/
theorem claim2_resume (urlValid : String → Bool)
    (store : String → Option PrevCrawl) (crawlList : List String)
    (crawlListFile nm : String) (newId : Nat) (prev : PrevCrawl)
    (hv : validateCrawlList urlValid crawlListFile crawlList = none)
    (hp : store nm = some prev)
    (hb : basename prev.crawl_list = basename crawlListFile)
    (hl : prev.crawl_list_length = crawlList.length)
    (hc : prev.completed = false) :
    crawlSetup urlValid store crawlList crawlListFile (some nm) true newId =
      ([SetupEvent.launchBrowser],
       SetupResult.proceed prev.id prev.crawl_list_current_index) ∧
    (∀ outcome : Nat → TargetOutcome,
      prev.crawl_list_current_index < crawlList.length →
      (driverLoop crawlList.length outcome prev.crawl_list_current_index).1.head? =
        some (prev.crawl_list_current_index,
          outcome prev.crawl_list_current_index)) := by
  constructor
  · simp only [crawlSetup, hv, runStateMachine, hp, hb, hl, hc]
    simp
  · intro outcome hk
    rw [driverLoop, driverLoopAux_fst]
    have h1 : crawlList.length - prev.crawl_list_current_index ≠ 0 := by omega
    obtain ⟨m, hm⟩ := Nat.exists_eq_succ_of_ne_zero h1
    rw [hm, List.range'_succ]
    rfl

/-- Store and inputs for the C2 witness: a prior incomplete run named `R`
with stored index 2 over a three-item list. -/
def prevW : PrevCrawl :=
  { id := 11, crawl_list := "dir/list.txt", crawl_list_current_index := 2,
    crawl_list_length := 3, completed := false }

def storeW : String → Option PrevCrawl :=
  fun nm => if nm = "R" then some prevW else none

def urlValidW : String → Bool := fun u => u ≠ "%%%"

theorem claim2_witness :
    crawlSetup urlValidW storeW ["https://a.example/", "https://b.example/",
        "https://c.example/"] "other/list.txt" (some "R") true 99 =
      ([SetupEvent.launchBrowser], SetupResult.proceed 11 2) ∧
    (driverLoop 3 outcomeW 2).1.head? = some (2, TargetOutcome.ok) := by
  have h := claim2_resume urlValidW storeW
    ["https://a.example/", "https://b.example/", "https://c.example/"]
    "other/list.txt" "R" 99 prevW rfl rfl (by decide) rfl rfl
  exact ⟨h.1, h.2 outcomeW (by decide)⟩

/-- C3: with resume enabled and a prior run of the given name whose list
basename differs, or whose list length differs, or which is already
completed, the setup aborts with a diagnostic and emits no event at all:
no insert, no update, no browser launch, hence no navigation. -/
theorem claim3_reject (urlValid : String → Bool)
    (store : String → Option PrevCrawl) (crawlList : List String)
    (crawlListFile nm : String) (newId : Nat) (prev : PrevCrawl)
    (hv : validateCrawlList urlValid crawlListFile crawlList = none)
    (hp : store nm = some prev)
    (hmis : basename prev.crawl_list ≠ basename crawlListFile ∨
      prev.crawl_list_length ≠ crawlList.length ∨ prev.completed = true) :
    ∃ d, crawlSetup urlValid store crawlList crawlListFile (some nm) true newId =
      ([], SetupResult.abortResume d) := by
  simp only [crawlSetup, hv, runStateMachine, hp, if_pos rfl]
  rcases hmis with hb | hl | hc
  · rw [if_pos hb]
    exact ⟨_, rfl⟩
  · by_cases hb : basename prev.crawl_list ≠ basename crawlListFile
    · rw [if_pos hb]; exact ⟨_, rfl⟩
    · rw [if_neg hb, if_pos hl]; exact ⟨_, rfl⟩
  · by_cases hb : basename prev.crawl_list ≠ basename crawlListFile
    · rw [if_pos hb]; exact ⟨_, rfl⟩
    · rw [if_neg hb]
      by_cases hl : prev.crawl_list_length ≠ crawlList.length
      · rw [if_pos hl]; exact ⟨_, rfl⟩
      · rw [if_neg hl, if_pos hc]; exact ⟨_, rfl⟩

theorem claim3_witness :
    ∃ d, crawlSetup urlValidW storeW ["https://a.example/", "https://b.example/"]
      "other/list.txt" (some "R") true 99 = ([], SetupResult.abortResume d) :=
  claim3_reject urlValidW storeW ["https://a.example/", "https://b.example/"]
    "other/list.txt" "R" 99 prevW rfl rfl (Or.inr (Or.inl (by decide)))

/-- C9 (code behaviour at the failing input): the crawl list has a valid
URL on line 1 and an invalid entry on line 2, yet the diagnostic names
line 1, because the counter `i` of crawler.ts line 176 is never
incremented.  The abort itself does happen at the first invalid entry,
before any run-record insert or browser launch. -/
theorem claim9_line_number_bug :
    validateCrawlList urlValidW "list.txt" ["https://a.example/", "%%%"] =
      some "Invalid URL in crawl list list.txt at line 1: %%%" ∧
    crawlSetup urlValidW (fun _ => none) ["https://a.example/", "%%%"]
        "list.txt" none false 5 =
      ([], SetupResult.abortInvalidUrl
        "Invalid URL in crawl list list.txt at line 1: %%%") := by
  constructor <;> rfl

/-- C10: with a crawl name whose prior run exists but resume not requested,
the setup does not abort: it inserts a brand-new run record carrying the
same name and index 0 and proceeds from index 0, so two run records share
one name and the prior run is neither resumed nor rejected. -/
theorem claim10_duplicate_name (urlValid : String → Bool)
    (store : String → Option PrevCrawl) (crawlList : List String)
    (crawlListFile nm : String) (newId : Nat) (prev : PrevCrawl)
    (hv : validateCrawlList urlValid crawlListFile crawlList = none)
    (hp : store nm = some prev) :
    crawlSetup urlValid store crawlList crawlListFile (some nm) false newId =
      ([SetupEvent.insertCrawl newId
          { name := some nm, completed := false, crawl_list := crawlListFile,
            crawl_list_current_index := 0,
            crawl_list_length := crawlList.length },
        SetupEvent.launchBrowser],
       SetupResult.proceed newId 0) := by
  simp [crawlSetup, hv, runStateMachine, hp, createCrawlEntry]

theorem claim10_witness :
    crawlSetup urlValidW storeW ["https://a.example/"] "dir/list.txt"
        (some "R") false 42 =
      ([SetupEvent.insertCrawl 42
          { name := some "R", completed := false, crawl_list := "dir/list.txt",
            crawl_list_current_index := 0, crawl_list_length := 1 },
        SetupEvent.launchBrowser],
       SetupResult.proceed 42 0) :=
  claim10_duplicate_name urlValidW storeW ["https://a.example/"]
    "dir/list.txt" "R" 42 prevW rfl rfl

/-! ## Request interception filter (crawler.ts lines 446-483) -/

/-- The fields of an intercepted request the handler reads. -/
structure HTTPRequest where
  url : String
  isNavigationRequest : Bool
  isMainFrame : Bool
  resourceType : String
  deriving Repr, DecidableEq

/-- The `WebRequest` fields populated at crawler.ts lines 468-476 (the
timestamp and job/crawl references are ambient and carry no information
for the claims). -/
structure WebRequest where
  parent_page : Int
  initiator : String
  target_url : String
  resource_type : String
  deriving Repr, DecidableEq

/-- The observable effect of one handler invocation: whether
`request.continue` was called, and the records pushed onto the buffer. -/
structure FilterResult where
  continued : Bool
  buffered : List WebRequest
  deriving Repr, DecidableEq

/-- crawler.ts lines 468-476: the record pushed onto the buffer, with the
placeholder owning-page identity `-1` (resolved later, at crawler.ts
line 527). -/
def bufferedRecord (pageUrl reqUrl resType : String) : WebRequest :=
  { parent_page := -1, initiator := pageUrl, target_url := reqUrl,
    resource_type := resType }

/-- crawler.ts lines 448-482: the per-tab interception handler.  `origin`
models `s => new URL(s).origin` of the external WHATWG URL parser, with
`none` meaning the constructor throws, which lands in the catch branch of
crawler.ts lines 478-481. -/
def captureThirdPartyRequests (origin : String → Option String)
    (captureEnabled : Bool) (pageUrl : String) (req : HTTPRequest) :
    FilterResult :=
  if !captureEnabled then { continued := true, buffered := [] }
  else if req.isNavigationRequest && req.isMainFrame then
    { continued := true, buffered := [] }
  else
    match origin req.url, origin pageUrl with
    | some ro, some po =>
      if ro = po then { continued := true, buffered := [] }
      else
        { continued := true,
          buffered := [bufferedRecord pageUrl req.url req.resourceType] }
    | _, _ => { continued := true, buffered := [] }

/-- C5: the handler always lets the request proceed; a main-frame
navigation request is never buffered; a request whose origin equals the
page origin is never buffered; a classification error (either URL failing
to parse) buffers nothing; and an enabled, non-navigation, cross-origin
request is buffered exactly once, with the target URL, the resource type
and the placeholder owning-page identity. -/
theorem claim5_filter (origin : String → Option String) (captureEnabled : Bool)
    (pageUrl : String) (req : HTTPRequest) :
    (captureThirdPartyRequests origin captureEnabled pageUrl req).continued
      = true ∧
    (req.isNavigationRequest = true → req.isMainFrame = true →
      (captureThirdPartyRequests origin captureEnabled pageUrl req).buffered
        = []) ∧
    (origin req.url = origin pageUrl →
      (captureThirdPartyRequests origin captureEnabled pageUrl req).buffered
        = []) ∧
    ((origin req.url = none ∨ origin pageUrl = none) →
      (captureThirdPartyRequests origin captureEnabled pageUrl req).buffered
        = []) ∧
    (∀ ro po, captureEnabled = true →
      (req.isNavigationRequest && req.isMainFrame) = false →
      origin req.url = some ro → origin pageUrl = some po → ro ≠ po →
      (captureThirdPartyRequests origin captureEnabled pageUrl req).buffered
        = [bufferedRecord pageUrl req.url req.resourceType]) := by
  unfold captureThirdPartyRequests
  refine ⟨?_, ?_, ?_, ?_, ?_⟩
  · cases captureEnabled <;>
      [skip; cases hn : req.isNavigationRequest && req.isMainFrame] <;>
      simp_all <;>
      rcases origin req.url with _ | ro <;>
      rcases origin pageUrl with _ | po <;>
      simp_all <;> split <;> simp
  · intro h1 h2
    cases captureEnabled <;> simp_all
  · intro h
    cases captureEnabled <;> simp_all
    cases hn : req.isNavigationRequest && req.isMainFrame <;> simp_all
    rcases ho : origin req.url with _ | ro <;> rw [ho] at h <;> rw [← h] <;>
      simp
  · intro h
    cases captureEnabled <;> simp_all
    cases hn : req.isNavigationRequest && req.isMainFrame <;> simp_all
    rcases h with h | h <;>
      rcases ho : origin req.url with _ | ro <;>
      rcases hp : origin pageUrl with _ | po <;>
      simp_all
  · intro ro po hcap hn ho hp hne
    simp_all
    split <;> simp_all

/-- Origin assignment for the C5 witness: the page and a same-origin asset
live on one origin, the CDN asset on another, and everything else fails to
parse. -/
def originW : String → Option String := fun s =>
  if s = "https://a.example" ∨ s = "https://a.example/x.js" then
    some "https://a.example"
  else if s = "https://cdn.example/y.js" then some "https://cdn.example"
  else none

/-- The cross-origin script request of the C5 witness. -/
def reqW : HTTPRequest :=
  { url := "https://cdn.example/y.js", isNavigationRequest := false,
    isMainFrame := false, resourceType := "script" }

theorem claim5_witness :
    (captureThirdPartyRequests originW true "https://a.example" reqW).continued
      = true ∧
    (captureThirdPartyRequests originW true "https://a.example" reqW).buffered
      = [bufferedRecord "https://a.example" "https://cdn.example/y.js"
          "script"] := by
  have h := claim5_filter originW true "https://a.example" reqW
  exact ⟨h.1, h.2.2.2.2 "https://cdn.example" "https://a.example" rfl
    (by decide) (by decide) (by decide) (by decide)⟩

/-! ## Scroll loop (crawler.ts lines 552-580) -/

/-- crawler.ts lines 578-580: `randrange(low, high)` returns
`Math.random() * (high - low) + low`; the draw `r` of `Math.random()`, a
value in `[0, 1)`, is passed explicitly. -/
def randrange (r low high : ℚ) : ℚ := r * (high - low) + low

/-- crawler.ts lines 552-576: the scroll loop
`while (scrollY + innerHeight < scrollHeight && i < 30)`. `obs k` is the
`window.scrollY` measurement read before the loop (`k = 0`) and at the end
of iteration `k` (crawler.ts line 572); `innerHeight` and `scrollHeight`
are read once before the loop; `rand k` is the `Math.random()` draw of
iteration `k` for the wheel delta.  `remaining` counts the iterations the
bound `i < 30` still allows, so it starts at 30 and `i` tracks the source
counter.  Returns the wheel deltas issued, one per iteration. -/
def scrollLoopAux (innerHeight scrollHeight : Int) (obs : Nat → Int)
    (rand : Nat → ℚ) : Int → Nat → Nat → List ℚ
  | _, _, 0 => []
  | scrollY, i, remaining + 1 =>
    if scrollY + innerHeight < scrollHeight then
      randrange (rand i) 200 400 ::
        scrollLoopAux innerHeight scrollHeight obs rand (obs (i + 1)) (i + 1)
          remaining
    else []

def scrollDownPage (innerHeight scrollHeight : Int) (obs : Nat → Int)
    (rand : Nat → ℚ) : List ℚ :=
  scrollLoopAux innerHeight scrollHeight obs rand (obs 0) 0 30

theorem scrollLoopAux_length (innerHeight scrollHeight : Int)
    (obs : Nat → Int) (rand : Nat → ℚ) :
    ∀ (remaining i : Nat) (scrollY : Int),
      (scrollLoopAux innerHeight scrollHeight obs rand scrollY i
        remaining).length ≤ remaining := by
  intro remaining
  induction remaining with
  | zero => intro i sy; simp [scrollLoopAux]
  | succ n ih =>
    intro i sy
    rw [scrollLoopAux]
    split
    · simpa using ih (i + 1) (obs (i + 1))
    · simp

theorem randrange_bounds (r : ℚ) (h0 : 0 ≤ r) (h1 : r < 1) :
    200 ≤ randrange r 200 400 ∧ randrange r 200 400 < 400 := by
  unfold randrange
  constructor <;> nlinarith

theorem scrollLoopAux_mem (innerHeight scrollHeight : Int) (obs : Nat → Int)
    (rand : Nat → ℚ) (hr : ∀ k, 0 ≤ rand k ∧ rand k < 1) :
    ∀ (remaining i : Nat) (scrollY : Int),
      ∀ d ∈ scrollLoopAux innerHeight scrollHeight obs rand scrollY i
        remaining, 200 ≤ d ∧ d < 400 := by
  intro remaining
  induction remaining with
  | zero => intro i sy d hd; simp [scrollLoopAux] at hd
  | succ n ih =>
    intro i sy d hd
    rw [scrollLoopAux] at hd
    split at hd
    · rcases List.mem_cons.mp hd with h | h
      · subst h; exact randrange_bounds (rand i) (hr i).1 (hr i).2
      · exact ih (i + 1) (obs (i + 1)) d h
    · simp at hd

/-- C7: for every page geometry, every sequence of scroll measurements and
every sequence of pseudo-random draws in `[0, 1)`, the scroll loop issues
at most 30 wheel scrolls, and every delta issued lies in `[200, 400)`. -/
theorem claim7_scroll (innerHeight scrollHeight : Int) (obs : Nat → Int)
    (rand : Nat → ℚ) :
    (scrollDownPage innerHeight scrollHeight obs rand).length ≤ 30 ∧
    ((∀ k, 0 ≤ rand k ∧ rand k < 1) →
      ∀ d ∈ scrollDownPage innerHeight scrollHeight obs rand,
        200 ≤ d ∧ d < 400) := by
  constructor
  · exact scrollLoopAux_length innerHeight scrollHeight obs rand 30 0 (obs 0)
  · intro hr d hd
    exact scrollLoopAux_mem innerHeight scrollHeight obs rand hr 30 0 (obs 0)
      d hd

theorem claim7_witness :
    (scrollDownPage 768 100000 (fun _ => 0) (fun _ => 0)).length ≤ 30 ∧
    (200 ≤ (200 : ℚ) ∧ (200 : ℚ) < 400) := by
  have h := claim7_scroll 768 100000 (fun _ => 0) (fun _ => 0)
  refine ⟨h.1, h.2 (fun k => by norm_num) 200 ?_⟩
  have hit : randrange 0 200 400 = 200 := by norm_num [randrange]
  rw [scrollDownPage]
  rw [scrollLoopAux]
  simp only [show ((0 : Int) + 768 < 100000) = True by simp, if_true, hit]
  exact List.mem_cons_self _ _

/-! ## Ad-bearing subpage exploration (crawler.ts lines 352-377) -/

/-- crawler.ts lines 352-377: the loop
`for (let i = 0; i < findAndCrawlPageWithAds; i++)`.  `disc i` models the
result of the discovery collaborator `findHealthRelatedPagesWithAds` on
attempt `i`, with `none` meaning no candidate, which logs and breaks
(crawler.ts lines 373-376).  `remaining` counts the iterations the bound
still allows, starting at the configured count, while `i` tracks the
source counter.  Returns the attempts made, each with its discovery
result. -/
def exploreAdsAux (disc : Nat → Option String) :
    Nat → Nat → List (Nat × Option String)
  | _, 0 => []
  | i, remaining + 1 =>
    match disc i with
    | some u => (i, some u) :: exploreAdsAux disc (i + 1) remaining
    | none => [(i, none)]

def exploreAds (n : Nat) (disc : Nat → Option String) :
    List (Nat × Option String) :=
  exploreAdsAux disc 0 n

def exploreAttempts (n : Nat) (disc : Nat → Option String) : Nat :=
  (exploreAds n disc).length

theorem exploreAdsAux_length (disc : Nat → Option String) :
    ∀ (remaining i : Nat), (exploreAdsAux disc i remaining).length ≤ remaining := by
  intro remaining
  induction remaining with
  | zero => intro i; simp [exploreAdsAux]
  | succ n ih =>
    intro i
    rw [exploreAdsAux]
    rcases disc i with _ | u
    · simp
    · simpa using ih (i + 1)

theorem exploreAdsAux_stops (disc : Nat → Option String) :
    ∀ (remaining i j : Nat), j < remaining → disc (i + j) = none →
      (∀ m, m < j → (disc (i + m)).isSome = true) →
      (exploreAdsAux disc i remaining).length = j + 1 := by
  intro remaining
  induction remaining with
  | zero => intro i j hj; omega
  | succ n ih =>
    intro i j hj hnone hsome
    rw [exploreAdsAux]
    rcases hd : disc i with _ | u
    · have hj0 : j = 0 := by
        by_contra hne
        have h0 := hsome 0 (by omega)
        rw [Nat.add_zero, hd] at h0
        simp at h0
      simp [hj0]
    · have hj0 : j ≠ 0 := by
        intro h
        rw [h, Nat.add_zero, hd] at hnone
        simp at hnone
      obtain ⟨j1, rfl⟩ := Nat.exists_eq_succ_of_ne_zero hj0
      have hrec := ih (i + 1) j1 (by omega)
        (by rw [show i + 1 + j1 = i + (j1 + 1) by omega]; exact hnone)
        (fun m hm => by
          rw [show i + 1 + m = i + (m + 1) by omega]
          exact hsome (m + 1) (by omega))
      simp [hrec]

/-- C8: the exploration loop makes at most `n` discovery attempts, and if
the discovery collaborator first returns no candidate on attempt `j`
(0-based) with `j < n`, exactly `j + 1` attempts are made: the loop stops
at the first empty result and does not retry. -/
theorem claim8_explore (n : Nat) (disc : Nat → Option String) :
    exploreAttempts n disc ≤ n ∧
    (∀ j, j < n → disc j = none →
      (∀ m, m < j → (disc m).isSome = true) →
      exploreAttempts n disc = j + 1) := by
  constructor
  · exact exploreAdsAux_length disc n 0
  · intro j hj hnone hsome
    unfold exploreAttempts exploreAds
    exact exploreAdsAux_stops disc n 0 j hj (by simpa using hnone)
      (fun m hm => by simpa using hsome m hm)

/-- Discovery results for the C8 witness: a candidate on attempt 0, none on
attempt 1. -/
def discW : Nat → Option String :=
  fun i => if i = 0 then some "https://a.example/health" else none

theorem claim8_witness :
    exploreAttempts 3 discW ≤ 3 ∧ exploreAttempts 3 discW = 2 := by
  have h := claim8_explore 3 discW
  refine ⟨h.1, h.2 1 (by decide) rfl ?_⟩
  intro m hm
  have hm0 : m = 0 := by omega
  rw [hm0]
  rfl

/-! ## Page load and capture pipeline (crawler.ts lines 423-550) -/

/-- Writes issued to the `page` and `request` tables by
`loadAndHandlePage`: the initial pending page record (crawler.ts
line 432), the URL update when site scraping is off (crawler.ts line 507),
the flushed request records (crawler.ts line 528) and the error update in
the catch branch (crawler.ts lines 544-546). -/
inductive PageDbEvent
  | archivePage (url : String)
  | updatePageUrl (pageId : Nat) (url : String)
  | updatePageError (pageId : Nat) (msg : String)
  | archiveRequest (pageId : Nat) (targetUrl : String)
  deriving Repr, DecidableEq

/-- Outcomes of the awaited collaborator calls inside the try block of
`loadAndHandlePage` (crawler.ts lines 444-541), each either resolving or
rejecting with an error message; `finalUrl` is `page.url()` after
navigation. -/
structure PageStepResults where
  setRequestInterception : Except String Unit
  goto : Except String Unit
  removeCookieBanners : Except String Unit
  pressEscape : Except String Unit
  scroll : Except String Unit
  scrapePage : Except String Unit
  updatePageUrl : Except String Unit
  scrapeAdsOnPage : Except String Unit
  finalUrl : String

/-- The scrape flags read by `loadAndHandlePage`
(crawler.ts lines 499, 514, 523). -/
structure ScrapeFlags where
  scrapeSite : Bool
  scrapeAds : Bool
  captureThirdPartyRequests : Bool
  deriving Repr, DecidableEq

/-- One awaited step of the try block: skipped when a previous step has
already rejected; otherwise it appends the step database events, or
records the step error. -/
def runStep (s : List PageDbEvent × Option String)
    (act : Except String (List PageDbEvent)) :
    List PageDbEvent × Option String :=
  match s.2 with
  | some _ => s
  | none =>
    match act with
    | Except.ok evs => (s.1 ++ evs, none)
    | Except.error e => (s.1, some e)

/-- crawler.ts lines 523-530: flush the buffered requests one by one,
stamping each with the real page id; `arch` is `db.archiveRequest`, which
may reject. -/
def flushRequests (arch : String → Except String Unit) (pageId : Nat) :
    List String → List PageDbEvent × Option String
  | [] => ([], none)
  | r :: rest =>
    match arch r with
    | Except.ok _ =>
      let t := flushRequests arch pageId rest
      (PageDbEvent.archiveRequest pageId r :: t.1, t.2)
    | Except.error e => ([], some e)

/-- The awaited steps of the try block in source order: request
interception setup, navigation, cookie-banner removal, the Escape key,
scrolling, then site scraping or the URL update, then ad scraping
(crawler.ts lines 446-520). -/
def pageSteps (flags : ScrapeFlags) (env : PageStepResults) (pageId : Nat) :
    List (Except String (List PageDbEvent)) :=
  [ env.setRequestInterception.map (fun _ => []),
    env.goto.map (fun _ => []),
    env.removeCookieBanners.map (fun _ => []),
    env.pressEscape.map (fun _ => []),
    env.scroll.map (fun _ => []),
    (if flags.scrapeSite then env.scrapePage.map (fun _ => [])
     else env.updatePageUrl.map
       (fun _ => [PageDbEvent.updatePageUrl pageId env.finalUrl])),
    (if flags.scrapeAds then env.scrapeAdsOnPage.map (fun _ => [])
     else Except.ok []) ]

/-- The whole try block (crawler.ts lines 444-541): the sequential steps,
then the request flush when capture is enabled. -/
def pagePipeline (flags : ScrapeFlags) (env : PageStepResults)
    (arch : String → Except String Unit) (buffered : List String)
    (pageId : Nat) (init : List PageDbEvent) :
    List PageDbEvent × Option String :=
  let s := (pageSteps flags env pageId).foldl runStep (init, none)
  if flags.captureThirdPartyRequests then
    match s.2 with
    | some _ => s
    | none =>
      let t := flushRequests arch pageId buffered
      (s.1 ++ t.1, t.2)
  else s

/-- crawler.ts lines 423-550: create the pending page record first
(crawler.ts line 432), run the try block, and in the catch branch update
the page record with the error message and re-raise (crawler.ts
lines 542-549); on success return the page id (crawler.ts line 541). -/
def loadAndHandlePage (flags : ScrapeFlags) (env : PageStepResults)
    (arch : String → Except String Unit) (buffered : List String)
    (url : String) (pageId : Nat) :
    List PageDbEvent × Except String Nat :=
  let s := pagePipeline flags env arch buffered pageId
    [PageDbEvent.archivePage url]
  match s.2 with
  | none => (s.1, Except.ok pageId)
  | some e =>
    (s.1 ++ [PageDbEvent.updatePageError pageId e], Except.error e)

theorem runStep_fst (s : List PageDbEvent × Option String)
    (act : Except String (List PageDbEvent)) :
    ∃ t, (runStep s act).1 = s.1 ++ t := by
  unfold runStep
  rcases s with ⟨evs, err⟩
  rcases err with _ | e
  · rcases act with e | l
    · exact ⟨[], by simp⟩
    · exact ⟨l, rfl⟩
  · exact ⟨[], by simp⟩

theorem foldl_runStep_fst (l : List (Except String (List PageDbEvent))) :
    ∀ s : List PageDbEvent × Option String,
      ∃ t, (l.foldl runStep s).1 = s.1 ++ t := by
  induction l with
  | nil => intro s; exact ⟨[], by simp⟩
  | cons a l ih =>
    intro s
    obtain ⟨t1, h1⟩ := runStep_fst s a
    obtain ⟨t2, h2⟩ := ih (runStep s a)
    exact ⟨t1 ++ t2, by rw [List.foldl_cons, h2, h1, List.append_assoc]⟩

theorem pagePipeline_fst (flags : ScrapeFlags) (env : PageStepResults)
    (arch : String → Except String Unit) (buffered : List String)
    (pageId : Nat) (init : List PageDbEvent) :
    ∃ t, (pagePipeline flags env arch buffered pageId init).1 = init ++ t := by
  unfold pagePipeline
  obtain ⟨t1, h1⟩ := foldl_runStep_fst (pageSteps flags env pageId) (init, none)
  rcases hc : flags.captureThirdPartyRequests with _ | _
  · simp only [hc, Bool.false_eq_true, if_false]
    exact ⟨t1, h1⟩
  · simp only [hc, if_true]
    rcases hs : ((pageSteps flags env pageId).foldl runStep (init, none)).2
        with _ | e
    · simp only
      exact ⟨t1 ++ (flushRequests arch pageId buffered).1,
        by rw [h1, List.append_assoc]⟩
    · simp only
      exact ⟨t1, h1⟩

/-- C6: the page-visit record is created, pending, before any navigation
effect: it is the first database write of the pipeline; on any failure the
final database write sets the error field of that record to the failure
message and the failure is re-raised to the caller; on success the
function returns the page-visit identity. -/
theorem claim6_page_pipeline (flags : ScrapeFlags) (env : PageStepResults)
    (arch : String → Except String Unit) (buffered : List String)
    (url : String) (pageId : Nat) :
    (∃ rest, (loadAndHandlePage flags env arch buffered url pageId).1 =
      PageDbEvent.archivePage url :: rest) ∧
    (∀ e, (loadAndHandlePage flags env arch buffered url pageId).2 =
        Except.error e →
      (loadAndHandlePage flags env arch buffered url pageId).1.getLast? =
        some (PageDbEvent.updatePageError pageId e)) ∧
    (∀ n, (loadAndHandlePage flags env arch buffered url pageId).2 =
        Except.ok n → n = pageId) := by
  obtain ⟨t, ht⟩ := pagePipeline_fst flags env arch buffered pageId
    [PageDbEvent.archivePage url]
  rcases hs : (pagePipeline flags env arch buffered pageId
      [PageDbEvent.archivePage url]).2 with _ | e
  · refine ⟨⟨t, ?_⟩, ?_, ?_⟩
    · simp only [loadAndHandlePage, hs]
      rw [ht]
      rfl
    · intro e he
      simp only [loadAndHandlePage, hs] at he
      cases he
    · intro n hn
      simp only [loadAndHandlePage, hs] at hn
      cases hn
      rfl
  · refine ⟨⟨t ++ [PageDbEvent.updatePageError pageId e], ?_⟩, ?_, ?_⟩
    · simp only [loadAndHandlePage, hs]
      rw [ht]
      rfl
    · intro e2 he
      simp only [loadAndHandlePage, hs] at he
      cases he
      simp only [loadAndHandlePage, hs]
      simp
    · intro n hn
      simp only [loadAndHandlePage, hs] at hn
      cases hn

/-- Step outcomes for the C6 witness: navigation rejects, everything else
resolves. -/
def envW : PageStepResults :=
  { setRequestInterception := Except.ok (),
    goto := Except.error "nav timeout",
    removeCookieBanners := Except.ok (), pressEscape := Except.ok (),
    scroll := Except.ok (), scrapePage := Except.ok (),
    updatePageUrl := Except.ok (), scrapeAdsOnPage := Except.ok (),
    finalUrl := "https://a.example/final" }

def flagsW : ScrapeFlags :=
  { scrapeSite := true, scrapeAds := true, captureThirdPartyRequests := true }

theorem claim6_witness :
    (loadAndHandlePage flagsW envW (fun _ => Except.ok ()) []
        "https://a.example" 7).1.getLast? =
      some (PageDbEvent.updatePageError 7 "nav timeout") ∧
    (loadAndHandlePage flagsW envW (fun _ => Except.ok ()) []
        "https://a.example" 7).1.head? =
      some (PageDbEvent.archivePage "https://a.example") := by
  obtain ⟨⟨rest, h1⟩, h2, h3⟩ := claim6_page_pipeline flagsW envW
    (fun _ => Except.ok ()) [] "https://a.example" 7
  refine ⟨h2 "nav timeout" rfl, ?_⟩
  rw [h1]
  rfl

end Adscraper
